import Mathlib

/-!
Shallow embedding of the googlemaps-menu-scraper repository
(src/scrape_menu.py, src/server.py) and verification of the frozen
claims about it.

The scraper drives a browser; here the browser-visible world is an
oracle: the sequence of scroll-height readings is a function from
read index to height, and the page content (menu tab presence, raw
image URLs returned by the in-page JavaScript extraction, an optional
internal failure) is a record.  The Python-side logic — the URL
filter, the order-preserving dedupe, the scroll loop bookkeeping, the
browser-close discipline and the HTTP response assembly — is
translated directly from the source.
-/

namespace GMaps

/-! ### Image URL filter (src/scrape_menu.py lines 128-132)

Python tests `"googleusercontent.com" in url or "googleapis.com" in url`:
substring containment over the whole URL string. -/

/-- Python substring containment `pat in s`: some suffix of `s` has `pat`
as a prefix. -/
def strContains (s pat : String) : Bool :=
  s.data.tails.any fun t => pat.data.isPrefixOf t

/-- The filter predicate of src/scrape_menu.py lines 129-132: keep a URL
when it contains either hard-coded domain string anywhere in the URL. -/
def isMenuImage (url : String) : Bool :=
  strContains url "googleusercontent.com" || strContains url "googleapis.com"

/-- `menu_images` of src/scrape_menu.py lines 129-132: the list
comprehension filtering the raw extracted URLs. -/
def menu_images (image_urls : List String) : List String :=
  image_urls.filter isMenuImage

/-! ### Order-preserving dedupe (src/scrape_menu.py lines 134-140)

The Python loop keeps a `seen` set and an output list; a URL is appended
the first time it is met.  The set is modelled as a list used only for
membership. -/

/-- The dedupe loop of src/scrape_menu.py lines 135-140, with the `seen`
set made explicit as an accumulator. -/
def dedupeFrom (seen : List String) : List String → List String
  | [] => []
  | u :: rest =>
    if u ∈ seen then dedupeFrom seen rest
    else u :: dedupeFrom (u :: seen) rest

/-- `unique_images` of src/scrape_menu.py lines 134-140: dedupe starting
from an empty `seen` set. -/
def unique_images (menu_imgs : List String) : List String :=
  dedupeFrom [] menu_imgs

/-- The whole filter-and-dedupe step applied to the raw extracted URL
list (src/scrape_menu.py lines 128-140). -/
def filterAndDedupe (image_urls : List String) : List String :=
  unique_images (menu_images image_urls)

/-- Host of a URL, modelled from the spec words "URLs whose host matches
a known image-hosting domain set": the characters after the first `://`
up to the first path, query, fragment or port delimiter.  The source has
no host extraction; this definition only serves to state the spec claim
about hosts. -/
def afterScheme : List Char → Option (List Char)
  | [] => none
  | c :: rest =>
    if [':', '/', '/'].isPrefixOf (c :: rest) then some (rest.drop 2)
    else afterScheme rest

/-- Host of a URL string (see `afterScheme`). -/
def urlHost (u : String) : String :=
  match afterScheme u.data with
  | none => ""
  | some cs =>
    String.mk (cs.takeWhile fun c => c ≠ '/' && c ≠ '?' && c ≠ '#' && c ≠ ':')

/-! ### Lemmas about the dedupe step -/

theorem dedupeFrom_sublist (seen l : List String) :
    List.Sublist (dedupeFrom seen l) l := by
  induction l generalizing seen with
  | nil => simp [dedupeFrom]
  | cons u rest ih =>
    by_cases h : u ∈ seen
    · simp only [dedupeFrom, if_pos h]
      exact (ih seen).cons u
    · simp only [dedupeFrom, if_neg h]
      exact (ih (u :: seen)).cons₂ u

theorem mem_dedupeFrom {seen l : List String} {u : String} :
    u ∈ dedupeFrom seen l ↔ u ∈ l ∧ u ∉ seen := by
  induction l generalizing seen with
  | nil => simp [dedupeFrom]
  | cons v rest ih =>
    by_cases h : v ∈ seen
    · simp only [dedupeFrom, if_pos h, ih, List.mem_cons]
      constructor
      · rintro ⟨hm, hs⟩; exact ⟨Or.inr hm, hs⟩
      · rintro ⟨hm | hm, hs⟩
        · exact absurd (hm ▸ h) hs
        · exact ⟨hm, hs⟩
    · simp only [dedupeFrom, if_neg h, List.mem_cons, ih]
      constructor
      · rintro (rfl | ⟨hm, hs⟩)
        · exact ⟨Or.inl rfl, h⟩
        · exact ⟨Or.inr hm, fun hu => hs (Or.inr hu)⟩
      · rintro ⟨rfl | hm, hs⟩
        · exact Or.inl rfl
        · by_cases huv : u = v
          · exact Or.inl huv
          · exact Or.inr ⟨hm, by simp [List.mem_cons, huv, hs]⟩

theorem nodup_dedupeFrom (seen l : List String) :
    (dedupeFrom seen l).Nodup := by
  induction l generalizing seen with
  | nil => simp [dedupeFrom]
  | cons v rest ih =>
    by_cases h : v ∈ seen
    · simpa only [dedupeFrom, if_pos h] using ih seen
    · simp only [dedupeFrom, if_neg h, List.nodup_cons]
      refine ⟨fun hmem => ?_, ih (v :: seen)⟩
      exact (mem_dedupeFrom.mp hmem).2 (List.mem_cons_self v seen)

theorem dedupeFrom_eq_self {seen l : List String}
    (hd : l.Nodup) (hs : ∀ u ∈ l, u ∉ seen) :
    dedupeFrom seen l = l := by
  induction l generalizing seen with
  | nil => rfl
  | cons v rest ih =>
    have hv : v ∉ seen := hs v (List.mem_cons_self v rest)
    have hvr : v ∉ rest := (List.nodup_cons.mp hd).1
    simp only [dedupeFrom, if_neg hv]
    refine congrArg (v :: ·) (ih (List.nodup_cons.mp hd).2 ?_)
    intro u hu
    simp only [List.mem_cons, not_or]
    exact ⟨fun huv => hvr (huv ▸ hu), hs u (List.mem_cons_of_mem v hu)⟩

theorem unique_images_idem (l : List String) :
    unique_images (unique_images l) = unique_images l := by
  unfold unique_images
  exact dedupeFrom_eq_self (nodup_dedupeFrom [] l) (by simp)

/-- Membership-aware transfer of `List.Pairwise` along an implication that
may use membership of both elements. -/
theorem pairwise_imp_mem {α : Type} {R S : α → α → Prop} :
    ∀ {l : List α}, l.Pairwise R →
      (∀ a ∈ l, ∀ b ∈ l, R a b → S a b) → l.Pairwise S
  | [], _, _ => List.Pairwise.nil
  | a :: l, hp, himp => by
    rcases List.pairwise_cons.mp hp with ⟨ha, hl⟩
    refine List.pairwise_cons.mpr ⟨fun b hb => ?_, ?_⟩
    · exact himp a (List.mem_cons_self a l) b (List.mem_cons_of_mem a hb) (ha b hb)
    · exact pairwise_imp_mem hl fun x hx y hy =>
        himp x (List.mem_cons_of_mem a hx) y (List.mem_cons_of_mem a hy)

theorem pairwise_indexOf_dedupeFrom (seen l : List String) :
    (dedupeFrom seen l).Pairwise fun a b => l.indexOf a < l.indexOf b := by
  induction l generalizing seen with
  | nil => simp [dedupeFrom]
  | cons v rest ih =>
    by_cases h : v ∈ seen
    · simp only [dedupeFrom, if_pos h]
      refine pairwise_imp_mem (ih seen) ?_
      intro a ha b hb hab
      have hav : a ≠ v := fun hav => (mem_dedupeFrom.mp ha).2 (hav ▸ h)
      have hbv : b ≠ v := fun hbv => (mem_dedupeFrom.mp hb).2 (hbv ▸ h)
      rw [List.indexOf_cons_ne rest (Ne.symm hav),
        List.indexOf_cons_ne rest (Ne.symm hbv)]
      exact Nat.succ_lt_succ hab
    · simp only [dedupeFrom, if_neg h]
      refine List.pairwise_cons.mpr ⟨fun b hb => ?_, ?_⟩
      · have hbv : b ≠ v :=
          fun hbv => (mem_dedupeFrom.mp hb).2 (hbv ▸ List.mem_cons_self v seen)
        rw [List.indexOf_cons_self, List.indexOf_cons_ne rest (Ne.symm hbv)]
        exact Nat.succ_pos _
      · refine pairwise_imp_mem (ih (v :: seen)) ?_
        intro a ha b hb hab
        have hav : a ≠ v :=
          fun hav => (mem_dedupeFrom.mp ha).2 (hav ▸ List.mem_cons_self v seen)
        have hbv : b ≠ v :=
          fun hbv => (mem_dedupeFrom.mp hb).2 (hbv ▸ List.mem_cons_self v seen)
        rw [List.indexOf_cons_ne rest (Ne.symm hav),
          List.indexOf_cons_ne rest (Ne.symm hbv)]
        exact Nat.succ_lt_succ hab

/-! ### Lazy-load scroll loop (src/scrape_menu.py lines 91-116)

The page is external: each call of
`page.evaluate("document.scrollingElement.scrollHeight")` is a fresh
reading supplied by an oracle `h : Nat → Nat`.  Iteration `i` of the
loop performs two readings: `current_height` is read `h (2*i)` (line 97;
the source never uses this value afterwards) and `new_height` is read
`h (2*i+1)` (line 104).  The loop state is `last_height` (initially 0)
and `unchanged_count` (initially 0); the for-loop runs at most
`max_scrolls = 20` iterations.  The horizontal menu-strip scroll (lines
113-116) touches no Python state and is omitted. -/

/-- The scroll loop of src/scrape_menu.py lines 95-116, returning the
number of iterations executed.  `fuel` is the number of remaining
iterations of `range(max_scrolls)`, `i` the current iteration index,
`last` the value of `last_height` and `count` of `unchanged_count`.
The comparison at line 105 is `new_height == last_height`; after an
increment the loop breaks when `unchanged_count >= 2` (line 107). -/
def scrollLoopGo (h : Nat → Nat) : Nat → Nat → Nat → Nat → Nat
  | 0, _, _, _ => 0
  | fuel + 1, i, last, count =>
    if h (2 * i + 1) = last then
      if 2 ≤ count + 1 then 1
      else 1 + scrollLoopGo h fuel (i + 1) last (count + 1)
    else
      1 + scrollLoopGo h fuel (i + 1) (h (2 * i + 1)) 0

/-- The scroll loop at its real entry point: `max_scrolls = 20`,
`last_height = 0`, `unchanged_count = 0`. -/
def scrollLoopIters (h : Nat → Nat) : Nat :=
  scrollLoopGo h 20 0 0 0

/-- The machine described by claim C4 and spec 4.4 step 4: the post-wait
re-read `h (2*i+1)` is compared against the pre-scroll reading
`h (2*i)` taken earlier in the same iteration; otherwise identical
bookkeeping.  This is the claim's words, not the source. -/
def scrollLoopClaimGo (h : Nat → Nat) : Nat → Nat → Nat → Nat → Nat
  | 0, _, _, _ => 0
  | fuel + 1, i, last, count =>
    if h (2 * i + 1) = h (2 * i) then
      if 2 ≤ count + 1 then 1
      else 1 + scrollLoopClaimGo h fuel (i + 1) last (count + 1)
    else
      1 + scrollLoopClaimGo h fuel (i + 1) (h (2 * i + 1)) 0

/-- The claim machine at the loop's real entry point. -/
def scrollLoopClaimIters (h : Nat → Nat) : Nat :=
  scrollLoopClaimGo h 20 0 0 0

/-- The `(last_height, unchanged_count)` state that the source loop holds
after `i` completed iterations, ignoring the break: the re-read
`h (2*i+1)` is compared with the recorded `last_height`; on a match the
counter is incremented, otherwise it is reset and the new height
recorded. -/
def scrollState (h : Nat → Nat) : Nat → Nat × Nat
  | 0 => (0, 0)
  | i + 1 =>
    if h (2 * i + 1) = (scrollState h i).1 then
      ((scrollState h i).1, (scrollState h i).2 + 1)
    else (h (2 * i + 1), 0)

/-- Declarative iteration count: the first `n ≥ 1` (counted from start
index `i`, within `fuel`) at which the unchanged-counter of `scrollState`
reaches 2, or `fuel` when it never does. -/
def firstStabFrom (h : Nat → Nat) : Nat → Nat → Nat
  | 0, _ => 0
  | fuel + 1, i =>
    if 2 ≤ (scrollState h (i + 1)).2 then 1
    else 1 + firstStabFrom h fuel (i + 1)

theorem scrollLoopGo_le_fuel (h : Nat → Nat) (fuel i last count : Nat) :
    scrollLoopGo h fuel i last count ≤ fuel := by
  induction fuel generalizing i last count with
  | zero => exact Nat.le_refl 0
  | succ n ih =>
    simp only [scrollLoopGo]
    split
    · split
      · omega
      · have := ih (i + 1) last (count + 1); omega
    · have := ih (i + 1) (h (2 * i + 1)) 0; omega

theorem scrollLoopGo_eq_firstStabFrom (h : Nat → Nat) (fuel : Nat) :
    ∀ i, (scrollState h i).2 ≤ 1 →
      scrollLoopGo h fuel i (scrollState h i).1 (scrollState h i).2 =
        firstStabFrom h fuel i := by
  induction fuel with
  | zero => intro i _; rfl
  | succ n ih =>
    intro i hc
    simp only [scrollLoopGo, firstStabFrom]
    by_cases heq : h (2 * i + 1) = (scrollState h i).1
    · rw [if_pos heq]
      have hstate : scrollState h (i + 1) =
          ((scrollState h i).1, (scrollState h i).2 + 1) := by
        simp only [scrollState, if_pos heq]
      by_cases h2 : 2 ≤ (scrollState h i).2 + 1
      · rw [if_pos h2, if_pos (by rw [hstate]; exact h2)]
      · rw [if_neg h2, if_neg (by rw [hstate]; exact h2)]
        have hc1 : (scrollState h (i + 1)).2 ≤ 1 := by rw [hstate]; omega
        have := ih (i + 1) hc1
        rw [hstate] at this
        rw [this]
    · rw [if_neg heq]
      have hstate : scrollState h (i + 1) = (h (2 * i + 1), 0) := by
        simp only [scrollState, if_neg heq]
      rw [if_neg (by rw [hstate]; omega)]
      have := ih (i + 1) (by simp [hstate])
      rw [hstate] at this
      rw [this]

theorem firstStabFrom_stops (h : Nat → Nat) (fuel : Nat) :
    ∀ i, 2 ≤ (scrollState h (i + firstStabFrom h fuel i)).2 ∨
      firstStabFrom h fuel i = fuel := by
  induction fuel with
  | zero => intro i; exact Or.inr rfl
  | succ n ih =>
    intro i
    simp only [firstStabFrom]
    by_cases hcond : 2 ≤ (scrollState h (i + 1)).2
    · rw [if_pos hcond]; exact Or.inl hcond
    · rw [if_neg hcond]
      rcases ih (i + 1) with hstop | hfull
      · left
        have harith : i + (1 + firstStabFrom h n (i + 1)) =
            i + 1 + firstStabFrom h n (i + 1) := by omega
        rw [harith]
        exact hstop
      · right; omega

theorem firstStabFrom_min (h : Nat → Nat) (fuel : Nat) :
    ∀ i k, 1 ≤ k → k < firstStabFrom h fuel i →
      (scrollState h (i + k)).2 < 2 := by
  induction fuel with
  | zero => intro i k _ hk; exact absurd hk (by simp [firstStabFrom])
  | succ n ih =>
    intro i k hk1 hk2
    simp only [firstStabFrom] at hk2
    by_cases hcond : 2 ≤ (scrollState h (i + 1)).2
    · rw [if_pos hcond] at hk2; omega
    · rw [if_neg hcond] at hk2
      by_cases hk : k = 1
      · subst hk; omega
      · have := ih (i + 1) (k - 1) (by omega) (by omega)
        have harith : i + 1 + (k - 1) = i + k := by omega
        rwa [harith] at this

/-! ### The scrape pipeline with browser lifecycle
(src/scrape_menu.py `scrape_menu_images`, lines 5-149)

The page behind the URL is a record: whether a visible Menu tab was
found by the locator fallback chain (lines 44-64), the raw URL list the
in-page JavaScript extraction would return (lines 120-126, already
filtered in the browser to truthy strings starting with `http`), and an
optional internal failure raised by some awaited operation inside the
`try` block before any `browser.close()` call.  The browser life cycle
is observable as a trace of events. -/

/-- Observable browser lifecycle events. -/
inductive Ev
  | close
deriving DecidableEq

/-- The external page behind the requested URL, as the script can
observe it. -/
structure PageModel where
  menuTabFound : Bool
  rawImageUrls : List String
  failure : Option String
deriving DecidableEq

/-- The `try` block body of `scrape_menu_images` (lines 23-144): on the
menu-tab-not-found path it closes the browser and returns `[]` (lines
82-83); on the normal path it filters, dedupes, closes the browser and
returns the result (lines 128-144); an internal failure escapes the body
with nothing closed yet. -/
def scrapeBody (page : PageModel) : List Ev × Except String (List String) :=
  match page.failure with
  | some msg => ([], Except.error msg)
  | none =>
    if page.menuTabFound then
      ([Ev.close], Except.ok (filterAndDedupe page.rawImageUrls))
    else
      ([Ev.close], Except.ok [])

/-- `scrape_menu_images` (lines 5-149): the `try` body wrapped by the
`except` handler of lines 146-149, which closes the browser and
re-raises the failure. -/
def scrape_menu_images (page : PageModel) : List Ev × Except String (List String) :=
  match scrapeBody page with
  | (evs, Except.error msg) => (evs ++ [Ev.close], Except.error msg)
  | (evs, Except.ok urls) => (evs, Except.ok urls)

/-! ### HTTP request adapter (src/server.py lines 26-71) -/

/-- `ScrapeResponse` of src/server.py lines 30-33: exactly the three
fields `status`, `place_url`, `menu_image_urls`. -/
structure ScrapeResponse where
  status : String
  place_url : String
  menu_image_urls : List String
deriving DecidableEq

/-- Outcome at the HTTP boundary: a 200 response with a `ScrapeResponse`
body, or an `HTTPException` with a status code and a `detail` string. -/
inductive HttpReply
  | ok (resp : ScrapeResponse)
  | httpError (statusCode : Nat) (detail : String)
deriving DecidableEq

/-- The `POST /scrape-menu` handler of src/server.py lines 42-71:
invokes the pipeline; on failure raises `HTTPException(500, "Scrape
failed: " + message)`; on success sets `status` to `"no_menu_found"`
exactly when the URL list is empty, else `"ok"`, and echoes the request
URL.  The browser event trace of the pipeline is returned alongside. -/
def scrape_menu (reqUrl : String) (page : PageModel) : HttpReply × List Ev :=
  match scrape_menu_images page with
  | (evs, Except.error msg) =>
    (HttpReply.httpError 500 ("Scrape failed: " ++ msg), evs)
  | (evs, Except.ok urls) =>
    let status := if urls.length = 0 then "no_menu_found" else "ok"
    (HttpReply.ok ⟨status, reqUrl, urls⟩, evs)

/-! ## Claims -/

/-- Claim C1, counterexample: the source filter (src/scrape_menu.py lines
129-132) tests substring containment over the whole URL, not the host.
A URL whose host is `evil.example` — a host that does not even contain
either recognized domain name — survives the filter-and-dedupe step
because the domain string sits in its query string.  This refutes the
claim that a URL whose host is outside the recognized set is never
present in the output. -/
theorem filter_host_counterexample :
    "http://evil.example/?googleusercontent.com" ∈
      filterAndDedupe ["http://evil.example/?googleusercontent.com"] ∧
    urlHost "http://evil.example/?googleusercontent.com" = "evil.example" ∧
    strContains "evil.example" "googleusercontent.com" = false ∧
    strContains "evil.example" "googleapis.com" = false := by decide

/-- Claim C1, amended: the Image URL Extractor and Filter output contains
only URLs that contain one of the two Google photo-hosting domain names
as a substring somewhere in the URL (the code tests substring
containment on the whole URL, not on the host); a URL containing neither
substring is never present in the output. -/
theorem filter_output_contains_domain (L : List String) (u : String)
    (h : u ∈ filterAndDedupe L) :
    strContains u "googleusercontent.com" = true ∨
      strContains u "googleapis.com" = true := by
  have hm : u ∈ menu_images L :=
    (dedupeFrom_sublist [] (menu_images L)).subset h
  have hp : isMenuImage u = true := (List.mem_filter.mp hm).2
  exact Bool.or_eq_true_iff.mp hp

/-- Witness for `filter_output_contains_domain` at a concrete input. -/
theorem filter_output_contains_domain_witness :
    ("http://lh3.googleusercontent.com/a" ∈
      filterAndDedupe
        ["http://lh3.googleusercontent.com/a", "http://x.test/b.png"]) ∧
    (strContains "http://lh3.googleusercontent.com/a"
        "googleusercontent.com" = true ∨
      strContains "http://lh3.googleusercontent.com/a"
        "googleapis.com" = true) :=
  ⟨by decide,
    filter_output_contains_domain
      ["http://lh3.googleusercontent.com/a", "http://x.test/b.png"]
      "http://lh3.googleusercontent.com/a" (by decide)⟩

/-- Claim C2, counterexample: with the Menu tab found and zero image URLs
extracted, the handler of src/server.py lines 62-65 derives the status
solely from emptiness of the URL list, so the response carries
`"no_menu_found"`, not `"ok"` as the claim states. -/
theorem empty_menu_status_counterexample :
    (scrape_menu "http://example.com/place"
        ⟨true, [], none⟩).1 =
      HttpReply.ok ⟨"no_menu_found", "http://example.com/place", []⟩ ∧
    ("no_menu_found" : String) ≠ "ok" := by decide

/-- Claim C2, amended: if the Menu tab was found and clicked but zero
image URLs are extracted, the request is still treated as a success (a
200 response with the structured three-field body, not an error), but
the response carries status `"no_menu_found"` — the server derives the
status solely from emptiness of the URL list and cannot distinguish this
case from a missing Menu tab — with an empty `menu_image_urls` list. -/
theorem empty_menu_tab_response (page : PageModel) (reqUrl : String)
    (hf : page.failure = none) (ht : page.menuTabFound = true)
    (hempty : filterAndDedupe page.rawImageUrls = []) :
    (scrape_menu reqUrl page).1 =
      HttpReply.ok ⟨"no_menu_found", reqUrl, []⟩ := by
  simp [scrape_menu, scrape_menu_images, scrapeBody, hf, ht, hempty]

/-- Witness for `empty_menu_tab_response` at a concrete input: a page
with a Menu tab whose only image is not Google-hosted. -/
theorem empty_menu_tab_response_witness :
    ((⟨true, ["http://x.test/menu.png"], none⟩ : PageModel).failure
        = none) ∧
    ((⟨true, ["http://x.test/menu.png"], none⟩ : PageModel).menuTabFound
        = true) ∧
    filterAndDedupe ["http://x.test/menu.png"] = [] ∧
    (scrape_menu "http://maps.example/p"
        ⟨true, ["http://x.test/menu.png"], none⟩).1 =
      HttpReply.ok ⟨"no_menu_found", "http://maps.example/p", []⟩ :=
  ⟨rfl, rfl, by decide,
    empty_menu_tab_response _ _ rfl rfl (by decide)⟩

/-- Claim C3: the dedupe step (src/scrape_menu.py lines 134-140) never
emits the same URL twice, is idempotent, and preserves the relative
order of first appearances in the input: along the output, the indices
of first occurrence in the input are strictly increasing. -/
theorem dedupe_nodup_order_idem (L : List String) :
    (unique_images L).Nodup ∧
    unique_images (unique_images L) = unique_images L ∧
    (unique_images L).Pairwise fun a b => L.indexOf a < L.indexOf b :=
  ⟨nodup_dedupeFrom [] L, unique_images_idem L,
    pairwise_indexOf_dedupeFrom [] L⟩

/-- Claim C4, counterexample: the source loop (src/scrape_menu.py line
105) compares the post-wait re-read against `last_height`, the height
recorded in an earlier iteration (initially 0) — the pre-scroll reading
`current_height` of line 97 is never used.  Under the oracle returning
the constant height 5, the source loop runs 3 iterations while the
machine described by the claim (comparison against the same-iteration
pre-scroll reading) runs 2, so the claim's description of the
comparison is not what the code does. -/
theorem scroll_compare_counterexample :
    scrollLoopIters (fun _ => 5) = 3 ∧
    scrollLoopClaimIters (fun _ => 5) = 2 := by decide

/-- Claim C4, amended: in every iteration the post-wait re-read is
compared against `last_height`, the height recorded when a change was
last observed (initially 0) — not the pre-scroll reading of the same
iteration, which the code never uses; on a match `unchanged_count` is
incremented, otherwise it is reset to 0 and the new height recorded,
and the loop stops as soon as `unchanged_count` reaches 2 (or after 20
iterations).  Stated as: the iteration count equals the first time the
`scrollState` counter reaches 2, capped at 20; the loop stops exactly
when that counter reaches 2 or the cap; and at no earlier iteration had
the counter reached 2. -/
theorem scroll_loop_last_height_semantics (h : Nat → Nat) :
    scrollLoopIters h = firstStabFrom h 20 0 ∧
    (2 ≤ (scrollState h (scrollLoopIters h)).2 ∨ scrollLoopIters h = 20) ∧
    ∀ k, 1 ≤ k → k < scrollLoopIters h → (scrollState h k).2 < 2 := by
  have heq : scrollLoopIters h = firstStabFrom h 20 0 :=
    scrollLoopGo_eq_firstStabFrom h 20 0 (by simp [scrollState])
  refine ⟨heq, ?_, ?_⟩
  · have hstops := firstStabFrom_stops h 20 0
    rw [Nat.zero_add] at hstops
    rw [heq]
    exact hstops
  · intro k h1 h2
    have hmin := firstStabFrom_min h 20 0 k h1 (heq ▸ h2)
    rwa [Nat.zero_add] at hmin

/-- Witness for `scroll_loop_last_height_semantics` at the constant
oracle. -/
theorem scroll_loop_last_height_semantics_witness :
    scrollLoopIters (fun _ => 5) = firstStabFrom (fun _ => 5) 20 0 ∧
    (scrollState (fun _ => 5) 2).2 < 2 :=
  ⟨(scroll_loop_last_height_semantics (fun _ => 5)).1,
    (scroll_loop_last_height_semantics (fun _ => 5)).2.2 2
      (by decide) (by decide)⟩

/-- Claim C5: the scroll loop executes at most `max_scrolls = 20`
iterations for every possible sequence of observed heights, and an
adversarial oracle whose height differs on every read indeed drives it
to exactly the 20-iteration cap. -/
theorem scroll_loop_bounded :
    (∀ h : Nat → Nat, scrollLoopIters h ≤ 20) ∧
    scrollLoopIters (fun k => k) = 20 :=
  ⟨fun h => scrollLoopGo_le_fuel h 20 0 0 0, by decide⟩

/-- Claim C6: when no visible Menu tab is found, the pipeline returns the
empty URL list — whatever raw image URLs the page holds — and the HTTP
response is exactly `status = "no_menu_found"` with
`menu_image_urls = []` and the echoed request URL, not an error. -/
theorem no_menu_found_response (page : PageModel) (reqUrl : String)
    (hf : page.failure = none) (ht : page.menuTabFound = false) :
    (scrape_menu reqUrl page).1 =
      HttpReply.ok ⟨"no_menu_found", reqUrl, []⟩ ∧
    (scrape_menu_images page).2 = Except.ok [] := by
  constructor
  · simp [scrape_menu, scrape_menu_images, scrapeBody, hf, ht]
  · simp [scrape_menu_images, scrapeBody, hf, ht]

/-- Witness for `no_menu_found_response` at a concrete input: the page
carries a Google-hosted image URL which is nevertheless not extracted
because the Menu tab is absent. -/
theorem no_menu_found_response_witness :
    ((⟨false, ["http://lh3.googleusercontent.com/x"], none⟩ :
        PageModel).failure = none) ∧
    ((⟨false, ["http://lh3.googleusercontent.com/x"], none⟩ :
        PageModel).menuTabFound = false) ∧
    ((scrape_menu "http://maps.example/place"
        ⟨false, ["http://lh3.googleusercontent.com/x"], none⟩).1 =
      HttpReply.ok ⟨"no_menu_found", "http://maps.example/place", []⟩ ∧
    (scrape_menu_images
        ⟨false, ["http://lh3.googleusercontent.com/x"], none⟩).2 =
      Except.ok []) :=
  ⟨rfl, rfl, no_menu_found_response _ _ rfl rfl⟩

/-- Claim C7: `scrape_menu_images` closes the browser exactly once on
every exit path — normal return with results, early empty return when
no Menu tab is found, and the re-raise path after an internal failure
(src/scrape_menu.py lines 82, 143 and 148). -/
theorem scrape_closes_browser (page : PageModel) :
    (scrape_menu_images page).1 = [Ev.close] := by
  obtain ⟨tab, raw, fail⟩ := page
  cases fail with
  | none => cases tab <;> rfl
  | some msg => rfl

/-- Claim C8: when the pipeline raises an internal failure, the browser
is closed before the failure propagates, and the HTTP layer answers
with status code 500 and detail `"Scrape failed: "` followed by the
underlying message (src/server.py lines 54-60). -/
theorem failure_maps_to_500 (page : PageModel) (reqUrl msg : String)
    (hf : page.failure = some msg) :
    (scrape_menu reqUrl page).1 =
      HttpReply.httpError 500 ("Scrape failed: " ++ msg) ∧
    Ev.close ∈ (scrape_menu reqUrl page).2 := by
  constructor
  · simp [scrape_menu, scrape_menu_images, scrapeBody, hf]
  · simp [scrape_menu, scrape_menu_images, scrapeBody, hf]

/-- Witness for `failure_maps_to_500` at a concrete input. -/
theorem failure_maps_to_500_witness :
    ((⟨true, [], some "boom"⟩ : PageModel).failure = some "boom") ∧
    ((scrape_menu "http://maps.example/p" ⟨true, [], some "boom"⟩).1 =
      HttpReply.httpError 500 ("Scrape failed: " ++ "boom") ∧
    Ev.close ∈ (scrape_menu "http://maps.example/p"
        ⟨true, [], some "boom"⟩).2) :=
  ⟨rfl, failure_maps_to_500 _ _ _ rfl⟩

/-- Claim C9: every successful reply of `POST /scrape-menu` is the
three-field record `ScrapeResponse` whose `place_url` is the request URL
echoed back, whose `status` is `"ok"` or `"no_menu_found"`, and whose
`menu_image_urls` is exactly the (possibly empty) ordered list produced
by the pipeline. -/
theorem success_response_shape (page : PageModel) (reqUrl : String)
    (resp : ScrapeResponse)
    (h : (scrape_menu reqUrl page).1 = HttpReply.ok resp) :
    resp.place_url = reqUrl ∧
    (resp.status = "ok" ∨ resp.status = "no_menu_found") ∧
    (scrape_menu_images page).2 = Except.ok resp.menu_image_urls := by
  rcases hsm : scrape_menu_images page with ⟨evs, r⟩
  unfold scrape_menu at h
  rw [hsm] at h
  cases r with
  | error msg => simp at h
  | ok urls =>
    simp only [HttpReply.ok.injEq] at h
    subst h
    refine ⟨rfl, ?_, rfl⟩
    by_cases hlen : urls.length = 0
    · exact Or.inr (by simp [hlen])
    · exact Or.inl (by simp [hlen])

/-- Witness for `success_response_shape` at a concrete input. -/
theorem success_response_shape_witness :
    ((scrape_menu "http://maps.example/p"
        ⟨true, ["http://lh3.googleusercontent.com/a"], none⟩).1 =
      HttpReply.ok ⟨"ok", "http://maps.example/p",
        ["http://lh3.googleusercontent.com/a"]⟩) ∧
    ((⟨"ok", "http://maps.example/p",
        ["http://lh3.googleusercontent.com/a"]⟩ :
          ScrapeResponse).place_url = "http://maps.example/p" ∧
      ((⟨"ok", "http://maps.example/p",
          ["http://lh3.googleusercontent.com/a"]⟩ :
            ScrapeResponse).status = "ok" ∨
        (⟨"ok", "http://maps.example/p",
          ["http://lh3.googleusercontent.com/a"]⟩ :
            ScrapeResponse).status = "no_menu_found") ∧
      (scrape_menu_images
          ⟨true, ["http://lh3.googleusercontent.com/a"], none⟩).2 =
        Except.ok ["http://lh3.googleusercontent.com/a"]) :=
  ⟨by decide, success_response_shape _ _ _ (by decide)⟩

/-- Claim C10: the filter-and-dedupe step fabricates nothing — its
output is a subsequence of the raw input list, every output element
occurs in the input, and the output is never longer than the input. -/
theorem filterAndDedupe_subsequence (L : List String) :
    List.Sublist (filterAndDedupe L) L ∧
    (∀ u ∈ filterAndDedupe L, u ∈ L) ∧
    (filterAndDedupe L).length ≤ L.length := by
  have hsub : List.Sublist (filterAndDedupe L) L :=
    (dedupeFrom_sublist [] (menu_images L)).trans (List.filter_sublist L)
  exact ⟨hsub, fun u hu => hsub.subset hu, hsub.length_le⟩

/-- Witness for `filterAndDedupe_subsequence` at a concrete input. -/
theorem filterAndDedupe_subsequence_witness :
    ("http://lh3.googleusercontent.com/a" ∈
      filterAndDedupe
        ["http://lh3.googleusercontent.com/a", "http://x.test/b.png"]) ∧
    "http://lh3.googleusercontent.com/a" ∈
      ["http://lh3.googleusercontent.com/a", "http://x.test/b.png"] :=
  ⟨by decide, (filterAndDedupe_subsequence _).2.1 _ (by decide)⟩

end GMaps
